import Mathlib

/-!
Verification of the byos-fastapi server (a FastAPI server for TRMNL e-ink
devices) against its natural-language specification.

The development shallowly embeds the Python source:
pure functions become Lean functions, integers are `Int` with Python floor
division written as `Int.fdiv`, stateful code (the device database, the
latest-image register, the image directory) is explicit state passing, and
fallible code returns `Option`.  File names in comments point at the Python
source the definition embeds.
-/

namespace Byos

/-! ### Plain-text rasterizer — `ImageGenerator._draw_text_content`
    (src/app/image_utils.py)

The Python loop is

    lines = content.split("\n")
    y_offset = 50
    line_height = 30
    for line in lines[:15]:
        if y_offset + line_height > height - 50:
            break
        draw.text((50, y_offset), line[:60], fill=0, font=font)
        y_offset += 30

We record the drawn calls as a list of (text, y_offset) pairs. -/

def draw_text_loop : List String → Int → Int → List (String × Int)
  | [], _, _ => []
  | l :: rest, y, height =>
    if y + 30 > height - 50 then []
    else (l.take 60, y) :: draw_text_loop rest (y + 30) height

/-- Embeds `_draw_text_content`: the list of (drawn text, y position) pairs produced
for a content string on a canvas of the given height. -/
def draw_text_content (content : String) (height : Int) : List (String × Int) :=
  draw_text_loop ((content.splitOn "\n").take 15) 50 height

theorem draw_text_loop_length_le (lines : List String) (y height : Int) :
    (draw_text_loop lines y height).length ≤ lines.length := by
  induction lines generalizing y with
  | nil => simp [draw_text_loop]
  | cons l rest ih =>
    simp only [draw_text_loop]
    split
    · simp
    · simpa using ih (y + 30)

theorem draw_text_loop_getElem? (lines : List String) (y height : Int) (i : Nat) :
    (draw_text_loop lines y height)[i]? =
      if y + 30 * i + 30 ≤ height - 50
      then lines[i]?.map (fun l => (l.take 60, y + 30 * i))
      else none := by
  induction lines generalizing y i with
  | nil => simp [draw_text_loop]
  | cons l rest ih =>
    simp only [draw_text_loop]
    split
    · rename_i hstop
      have : ¬ (y + 30 * i + 30 ≤ height - 50) := by
        have : (0 : Int) ≤ 30 * i := by positivity
        omega
      simp [this]
    · rename_i hfit
      push_neg at hfit
      match i with
      | 0 => simp; omega
      | Nat.succ j =>
        have := ih (y + 30) j
        simp only [List.getElem?_cons_succ, this]
        have harith : y + 30 + 30 * (j : Int) = y + 30 * ((j : Int) + 1) := by ring
        have hcast : ((Nat.succ j : Nat) : Int) = (j : Int) + 1 := by
          simp [Nat.succ_eq_add_one]
        rw [hcast, ← harith]

/-- C5: the plain-text rasterizer splits content on newlines, draws at most the
first 15 lines, each truncated to its first 60 characters, at fixed line height
30 starting at vertical offset 50, and an index is drawn exactly when the
line's bottom (its y position plus 30) does not exceed height - 50; over-long
content is truncated, never wrapped, and the function is total (never raises). -/
theorem draw_text_content_spec (content : String) (height : Int) (i : Nat) :
    (draw_text_content content height).length ≤ 15 ∧
    (draw_text_content content height)[i]? =
      (if i < 15 ∧ 50 + 30 * (i : Int) + 30 ≤ height - 50
       then (content.splitOn "\n")[i]?.map (fun l => (l.take 60, 50 + 30 * (i : Int)))
       else none) := by
  constructor
  · calc (draw_text_content content height).length
        ≤ ((content.splitOn "\n").take 15).length :=
          draw_text_loop_length_le _ _ _
      _ ≤ 15 := by simp
  · rw [draw_text_content, draw_text_loop_getElem?]
    by_cases h15 : i < 15
    · by_cases hfit : 50 + 30 * (i : Int) + 30 ≤ height - 50
      · simp [h15, hfit, List.getElem?_take, h15]
      · simp [hfit, h15]
    · have : ((content.splitOn "\n").take 15)[i]? = none := by
        apply List.getElem?_eq_none
        have := List.length_take_le 15 (content.splitOn "\n")
        omega
      simp [this, h15]

/-! ### Big-text rasterizer — `ImageGenerator._create_massive_text_manually`
    (src/app/image_utils.py)

    char_count = len(text.replace(" ", ""))
    spaces_count = text.count(" ")
    if char_count == 0: char_count = 1
    available_width = width - 20
    available_height = height - 100 if subtitle else height - 20
    char_width = available_width // (char_count + spaces_count // 2)
    char_height = available_height * 2 // 3
    total_width = char_count * char_width + (spaces_count * char_width // 3)
    start_x = (width - total_width) // 2
    start_y = (available_height - char_height) // 2 + 10
    for char in text:
        if char == " ": current_x += char_width // 3; continue
        draw.rectangle([current_x, start_y,
                        current_x + (char_width - 8), start_y + char_height], fill=0)
        ... per-letter white cutouts ...
        current_x += char_width

Python `//` on ints is floor division, written `Int.fdiv` here.  We record
the main solid fill rectangle drawn for each non-space character. -/

def char_count_raw (text : String) : Nat :=
  (text.toList.filter (fun c => c != ' ')).length

def spaces_count (text : String) : Nat :=
  (text.toList.filter (fun c => c == ' ')).length

def char_count (text : String) : Nat :=
  if char_count_raw text = 0 then 1 else char_count_raw text

def available_width (width : Int) : Int := width - 20

def available_height (height : Int) (subtitle : Option String) : Int :=
  if subtitle.isSome then height - 100 else height - 20

def big_char_width (text : String) (width : Int) : Int :=
  Int.fdiv (available_width width) ((char_count text + spaces_count text / 2 : Nat) : Int)

def big_char_height (height : Int) (subtitle : Option String) : Int :=
  Int.fdiv (available_height height subtitle * 2) 3

structure Rect where
  x0 : Int
  y0 : Int
  x1 : Int
  y1 : Int
deriving Repr, DecidableEq

def big_text_rects_loop (chars : List Char) (x startY cw ch : Int) : List Rect :=
  match chars with
  | [] => []
  | c :: rest =>
    if c = ' ' then big_text_rects_loop rest (x + Int.fdiv cw 3) startY cw ch
    else ⟨x, startY, x + (cw - 8), startY + ch⟩ ::
      big_text_rects_loop rest (x + cw) startY cw ch

/-- The main (solid black) fill rectangles drawn by
`_create_massive_text_manually`, one per non-space character. -/
def big_text_main_rects (text : String) (width height : Int)
    (subtitle : Option String) : List Rect :=
  let cw := big_char_width text width
  let ch := big_char_height height subtitle
  let total_width := (char_count text : Int) * cw +
    Int.fdiv ((spaces_count text : Int) * cw) 3
  let start_x := Int.fdiv (width - total_width) 2
  let start_y := Int.fdiv (available_height height subtitle - ch) 2 + 10
  big_text_rects_loop text.toList start_x start_y cw ch

theorem big_text_rects_loop_length (chars : List Char) (x sy cw ch : Int) :
    (big_text_rects_loop chars x sy cw ch).length =
      (chars.filter (fun c => c != ' ')).length := by
  induction chars generalizing x with
  | nil => simp [big_text_rects_loop]
  | cons c rest ih =>
    simp only [big_text_rects_loop]
    by_cases hc : c = ' '
    · have hb : (c != ' ') = false := by simp [hc]
      simp [hc, List.filter_cons, hb, ih]
    · have hb : (c != ' ') = true := by simp [hc]
      simp [hc, List.filter_cons, hb, ih]

theorem big_text_rects_loop_mem (chars : List Char) (x sy cw ch : Int) :
    ∀ r ∈ big_text_rects_loop chars x sy cw ch,
      r.x1 - r.x0 = cw - 8 ∧ r.y1 - r.y0 = ch := by
  induction chars generalizing x with
  | nil => simp [big_text_rects_loop]
  | cons c rest ih =>
    simp only [big_text_rects_loop]
    by_cases hc : c = ' '
    · simpa [hc] using ih (x + Int.fdiv cw 3)
    · intro r hr
      simp only [if_neg hc, List.mem_cons] at hr
      rcases hr with rfl | hr
      · exact ⟨by show x + (cw - 8) - x = cw - 8; ring,
          by show sy + ch - sy = ch; ring⟩
      · exact ih (x + cw) r hr

/-- C6: big-text geometry — letting n be the non-space character count
(replaced by 1 when 0) and s the space count, the per-character cell width is
(width-20) fdiv (n + s/2), the cell height is 2/3 of the available height
(height-100 with a subtitle, height-20 without), and the rasterizer draws
exactly one filled rectangle per non-space character, each of size
(cellWidth - 8) × cellHeight. -/
theorem big_text_geometry_spec (text : String) (width height : Int)
    (subtitle : Option String) :
    big_char_width text width =
      Int.fdiv (width - 20)
        (((if char_count_raw text = 0 then 1 else char_count_raw text)
          + spaces_count text / 2 : Nat) : Int) ∧
    big_char_height height subtitle =
      Int.fdiv ((if subtitle.isSome then height - 100 else height - 20) * 2) 3 ∧
    (big_text_main_rects text width height subtitle).length = char_count_raw text ∧
    ∀ r ∈ big_text_main_rects text width height subtitle,
      r.x1 - r.x0 = big_char_width text width - 8 ∧
      r.y1 - r.y0 = big_char_height height subtitle := by
  refine ⟨rfl, rfl, ?_, ?_⟩
  · rw [big_text_main_rects, big_text_rects_loop_length]
    rfl
  · exact big_text_rects_loop_mem _ _ _ _ _

/-- Witness for C6 at text "HELLO WORLD", 800×480, no subtitle: the first
glyph rectangle is a member and has the claimed size. -/
theorem big_text_geometry_spec_witness :
    Rect.mk (-3) 87 67 393 ∈ big_text_main_rects "HELLO WORLD" 800 480 none ∧
    (Rect.mk (-3) 87 67 393).x1 - (Rect.mk (-3) 87 67 393).x0 =
      big_char_width "HELLO WORLD" 800 - 8 ∧
    (Rect.mk (-3) 87 67 393).y1 - (Rect.mk (-3) 87 67 393).y0 =
      big_char_height 480 none :=
  ⟨by decide,
   (big_text_geometry_spec "HELLO WORLD" 800 480 none).2.2.2 _ (by decide)⟩

/-! ### Device directory — src/app/models.py `Device`, src/app/database.py

Timestamps are abstracted to `Nat` and the float `battery_voltage` to `Int`
(no claim computes on their values; only presence/equality matters).
The sqlite `devices` table is a list of rows in insertion order;
`mac_address` is the primary key, so at most one row matches a lookup. -/

structure Device where
  mac_address : String
  api_key : String
  friendly_id : String
  created_at : Nat
  last_seen : Option Nat := none
  firmware_version : Option String := none
  battery_voltage : Option Int := none
deriving Repr, DecidableEq

/-- Embeds `Database.get_device`: SELECT * FROM devices WHERE mac_address = ? -/
def get_device (db : List Device) (mac : String) : Option Device :=
  db.find? (fun d => d.mac_address == mac)

/-- Embeds `Database.create_device`: INSERT INTO devices ... (appends a row). -/
def create_device (db : List Device) (d : Device) : List Device := db ++ [d]

/-! ### Credential generation — src/app/main.py

    def generate_api_key() -> str:
        return "".join(secrets.choice(string.ascii_letters + string.digits)
                       for _ in range(32))

    def generate_friendly_id() -> str:
        return "".join(secrets.choice(string.ascii_uppercase + string.digits)
                       for _ in range(6))

`secrets.choice` picks an arbitrary element of the pool; it is modelled by an
arbitrary index stream reduced modulo the pool size. -/

def ascii_lowercase : List Char := "abcdefghijklmnopqrstuvwxyz".toList

def ascii_uppercase : List Char := "ABCDEFGHIJKLMNOPQRSTUVWXYZ".toList

def string_digits : List Char := "0123456789".toList

def ascii_letters : List Char := ascii_lowercase ++ ascii_uppercase

def api_key_pool : List Char := ascii_letters ++ string_digits

def friendly_id_pool : List Char := ascii_uppercase ++ string_digits

def generate_api_key (choice : Nat → Nat) : String :=
  String.mk ((List.range 32).map
    (fun i => api_key_pool.getD (choice i % api_key_pool.length) 'A'))

def generate_friendly_id (choice : Nat → Nat) : String :=
  String.mk ((List.range 6).map
    (fun i => friendly_id_pool.getD (choice i % friendly_id_pool.length) 'A'))

/-! ### POST /api/setup — `setup_endpoint` (src/app/main.py) -/

structure SetupCredentials where
  api_key : String
  friendly_id : String
deriving Repr, DecidableEq

/-- Embeds `setup_endpoint`: returns the stored credentials when the device exists,
otherwise creates the device with freshly generated credentials.  The fresh
credentials and the current time are passed in explicitly. -/
def setup_endpoint (db : List Device) (mac : String) (fw : Option String)
    (freshKey freshId : String) (now : Nat) : SetupCredentials × List Device :=
  match get_device db mac with
  | some d => (⟨d.api_key, d.friendly_id⟩, db)
  | none =>
    (⟨freshKey, freshId⟩,
     create_device db
       { mac_address := mac, api_key := freshKey, friendly_id := freshId,
         created_at := now, firmware_version := fw })

theorem getD_mem_of_pos {l : List Char} (hl : 0 < l.length) (n : Nat) (d : Char) :
    l.getD (n % l.length) d ∈ l := by
  have hlt : n % l.length < l.length := Nat.mod_lt _ hl
  rw [List.getD_eq_getElem _ _ hlt]
  exact List.getElem_mem _

theorem generate_api_key_length (choice : Nat → Nat) :
    (generate_api_key choice).length = 32 := by
  simp [generate_api_key, String.length]

theorem generate_api_key_chars (choice : Nat → Nat) :
    ∀ ch ∈ (generate_api_key choice).toList, ch.isAlpha ∨ ch.isDigit := by
  intro ch hch
  simp only [generate_api_key, String.toList, List.mem_map] at hch
  obtain ⟨i, _, rfl⟩ := hch
  have hmem : api_key_pool.getD (choice i % api_key_pool.length) 'A'
      ∈ api_key_pool := getD_mem_of_pos (by decide) _ _
  have hall : ∀ c ∈ api_key_pool, c.isAlpha ∨ c.isDigit := by decide
  exact hall _ hmem

theorem generate_friendly_id_length (choice : Nat → Nat) :
    (generate_friendly_id choice).length = 6 := by
  simp [generate_friendly_id, String.length]

theorem generate_friendly_id_chars (choice : Nat → Nat) :
    ∀ ch ∈ (generate_friendly_id choice).toList, ch.isUpper ∨ ch.isDigit := by
  intro ch hch
  simp only [generate_friendly_id, String.toList, List.mem_map] at hch
  obtain ⟨i, _, rfl⟩ := hch
  have hmem : friendly_id_pool.getD (choice i % friendly_id_pool.length) 'A'
      ∈ friendly_id_pool := getD_mem_of_pos (by decide) _ _
  have hall : ∀ c ∈ friendly_id_pool, c.isUpper ∨ c.isDigit := by decide
  exact hall _ hmem

theorem get_device_after_create (db : List Device) (mac : String) (d : Device)
    (hnone : get_device db mac = none) (hd : d.mac_address = mac) :
    get_device (create_device db d) mac = some d := by
  rw [get_device, create_device, List.find?_append]
  rw [get_device] at hnone
  simp [hnone, List.find?, hd]

/-- C7: POST /api/setup is idempotent on credentials — two calls with the same
MAC return identical api_key and friendly_id — and for a previously unknown
MAC the returned api_key is a 32-character string over the mixed-case
alphanumeric pool and the friendly_id a 6-character string over the
uppercase-alphanumeric pool. -/
theorem setup_idempotent_and_credential_format
    (db : List Device) (mac : String) (fw1 fw2 : Option String)
    (c1 c2 : Nat → Nat) (k2 i2 : String) (t1 t2 : Nat) :
    (setup_endpoint
        (setup_endpoint db mac fw1 (generate_api_key c1)
          (generate_friendly_id c2) t1).2
        mac fw2 k2 i2 t2).1 =
      (setup_endpoint db mac fw1 (generate_api_key c1)
        (generate_friendly_id c2) t1).1 ∧
    (get_device db mac = none →
      (setup_endpoint db mac fw1 (generate_api_key c1)
          (generate_friendly_id c2) t1).1 =
        ⟨generate_api_key c1, generate_friendly_id c2⟩ ∧
      (generate_api_key c1).length = 32 ∧
      (∀ ch ∈ (generate_api_key c1).toList, ch.isAlpha ∨ ch.isDigit) ∧
      (generate_friendly_id c2).length = 6 ∧
      (∀ ch ∈ (generate_friendly_id c2).toList, ch.isUpper ∨ ch.isDigit)) := by
  constructor
  · cases h : get_device db mac with
    | some d => simp [setup_endpoint, h]
    | none =>
      have hafter := get_device_after_create db mac
        { mac_address := mac, api_key := generate_api_key c1,
          friendly_id := generate_friendly_id c2, created_at := t1,
          firmware_version := fw1 } h rfl
      simp [setup_endpoint, h, hafter]
  · intro h
    exact ⟨by simp [setup_endpoint, h],
      generate_api_key_length c1, generate_api_key_chars c1,
      generate_friendly_id_length c2, generate_friendly_id_chars c2⟩

/-- Witness for C7 at an empty database and MAC AA:BB:CC:DD:EE:FF with the
constant-zero choice stream: the second call returns the first call's
credentials, and the generated credentials have lengths 32 and 6. -/
theorem setup_idempotent_and_credential_format_witness :
    (setup_endpoint
        (setup_endpoint [] "AA:BB:CC:DD:EE:FF" none
          (generate_api_key (fun _ => 0)) (generate_friendly_id (fun _ => 0)) 0).2
        "AA:BB:CC:DD:EE:FF" none "k2" "i2" 1).1 =
      (setup_endpoint [] "AA:BB:CC:DD:EE:FF" none
        (generate_api_key (fun _ => 0)) (generate_friendly_id (fun _ => 0)) 0).1 ∧
    (setup_endpoint [] "AA:BB:CC:DD:EE:FF" none
        (generate_api_key (fun _ => 0)) (generate_friendly_id (fun _ => 0)) 0).1 =
      ⟨generate_api_key (fun _ => 0), generate_friendly_id (fun _ => 0)⟩ ∧
    (generate_api_key (fun _ => 0)).length = 32 ∧
    (generate_friendly_id (fun _ => 0)).length = 6 :=
  ⟨(setup_idempotent_and_credential_format [] "AA:BB:CC:DD:EE:FF" none none
      (fun _ => 0) (fun _ => 0) "k2" "i2" 0 1).1,
   ((setup_idempotent_and_credential_format [] "AA:BB:CC:DD:EE:FF" none none
      (fun _ => 0) (fun _ => 0) "k2" "i2" 0 1).2 rfl).1,
   ((setup_idempotent_and_credential_format [] "AA:BB:CC:DD:EE:FF" none none
      (fun _ => 0) (fun _ => 0) "k2" "i2" 0 1).2 rfl).2.1,
   ((setup_idempotent_and_credential_format [] "AA:BB:CC:DD:EE:FF" none none
      (fun _ => 0) (fun _ => 0) "k2" "i2" 0 1).2 rfl).2.2.2.1⟩

/-! ### Telemetry status refresh — `Database.update_device_status`
    (src/app/database.py)

    def update_device_status(self, mac_address, **kwargs):
        fields, values = [], []
        for key, value in kwargs.items():
            if value is not None:
                ...
                fields.append(f"\x7bkey\x7d = ?"); values.append(value)
        if fields:
            query = f"UPDATE devices SET ... WHERE mac_address = ?"
            conn.execute(query, values)

Both call sites (src/app/main.py display_endpoint and log_endpoint) pass
exactly the keywords last_seen, firmware_version and battery_voltage, so the
kwargs dict is modelled by a record of three options. -/

structure StatusUpdate where
  last_seen : Option Nat := none
  firmware_version : Option String := none
  battery_voltage : Option Int := none
deriving Repr, DecidableEq

/-- Embeds `if fields:` — true exactly when at least one keyword value is not None. -/
def status_fields_empty (kw : StatusUpdate) : Bool :=
  kw.last_seen.isNone && kw.firmware_version.isNone && kw.battery_voltage.isNone

/-- Effect of the generated UPDATE statement on one matching row: each column
named in the SET clause (i.e. supplied non-None) receives the new value. -/
def apply_status (kw : StatusUpdate) (d : Device) : Device :=
  { d with
    last_seen := match kw.last_seen with
      | some v => some v
      | none => d.last_seen
    firmware_version := match kw.firmware_version with
      | some v => some v
      | none => d.firmware_version
    battery_voltage := match kw.battery_voltage with
      | some v => some v
      | none => d.battery_voltage }

/-- Embeds `update_device_status`: no SQL is executed when every supplied value is
None; otherwise the UPDATE touches exactly the rows whose mac_address
matches. -/
def update_device_status (db : List Device) (mac : String)
    (kw : StatusUpdate) : List Device :=
  if status_fields_empty kw then db
  else db.map (fun d => if d.mac_address == mac then apply_status kw d else d)

/-- C10: update_device_status modifies only the fields supplied with non-None
values — a None field keeps its stored value, identity fields are never
touched, an all-None call performs no write at all, and rows with a different
MAC are untouched. -/
theorem update_device_status_frame (db : List Device) (mac : String)
    (kw : StatusUpdate) :
    (status_fields_empty kw = true → update_device_status db mac kw = db) ∧
    (∀ i : Nat, (update_device_status db mac kw)[i]? =
      db[i]?.map (fun d =>
        if status_fields_empty kw = false ∧ d.mac_address = mac
        then apply_status kw d else d)) ∧
    (∀ d : Device,
      (apply_status kw d).mac_address = d.mac_address ∧
      (apply_status kw d).api_key = d.api_key ∧
      (apply_status kw d).friendly_id = d.friendly_id ∧
      (apply_status kw d).created_at = d.created_at ∧
      (kw.last_seen = none → (apply_status kw d).last_seen = d.last_seen) ∧
      (kw.firmware_version = none →
        (apply_status kw d).firmware_version = d.firmware_version) ∧
      (kw.battery_voltage = none →
        (apply_status kw d).battery_voltage = d.battery_voltage) ∧
      (∀ v, kw.last_seen = some v → (apply_status kw d).last_seen = some v) ∧
      (∀ v, kw.firmware_version = some v →
        (apply_status kw d).firmware_version = some v) ∧
      (∀ v, kw.battery_voltage = some v →
        (apply_status kw d).battery_voltage = some v)) := by
  refine ⟨fun h => by simp [update_device_status, h], ?_, ?_⟩
  · intro i
    by_cases hempty : status_fields_empty kw = true
    · have : update_device_status db mac kw = db := by
        simp [update_device_status, hempty]
      rw [this]
      cases hdb : db[i]? with
      | none => simp
      | some d => simp [hempty]
    · have hfalse : status_fields_empty kw = false := by
        simpa using hempty
      rw [update_device_status, if_neg (by simp [hfalse]), List.getElem?_map]
      cases hdb : db[i]? with
      | none => simp
      | some d =>
        by_cases hmac : d.mac_address = mac
        · simp [hmac, hfalse]
        · simp [hmac, hfalse]
  · intro d
    refine ⟨rfl, rfl, rfl, rfl, ?_, ?_, ?_, ?_, ?_, ?_⟩ <;>
      first
        | (intro h; simp [apply_status, h])
        | (intro v h; simp [apply_status, h])

/-- Witness for C10: an all-None update leaves a one-row database unchanged,
and a last_seen-only update keeps the stored firmware and battery while
setting last_seen. -/
theorem update_device_status_frame_witness :
    update_device_status
      [{ mac_address := "AA", api_key := "k", friendly_id := "f",
         created_at := 0, last_seen := some 1,
         firmware_version := some "1.0", battery_voltage := some 37 }]
      "AA" {} =
      [{ mac_address := "AA", api_key := "k", friendly_id := "f",
         created_at := 0, last_seen := some 1,
         firmware_version := some "1.0", battery_voltage := some 37 }] ∧
    (apply_status { last_seen := some 9 }
      { mac_address := "AA", api_key := "k", friendly_id := "f",
        created_at := 0, last_seen := some 1,
        firmware_version := some "1.0",
        battery_voltage := some 37 }).firmware_version = some "1.0" ∧
    (apply_status { last_seen := some 9 }
      { mac_address := "AA", api_key := "k", friendly_id := "f",
        created_at := 0, last_seen := some 1,
        firmware_version := some "1.0",
        battery_voltage := some 37 }).battery_voltage = some 37 ∧
    (apply_status { last_seen := some 9 }
      { mac_address := "AA", api_key := "k", friendly_id := "f",
        created_at := 0, last_seen := some 1,
        firmware_version := some "1.0",
        battery_voltage := some 37 }).last_seen = some 9 :=
  ⟨(update_device_status_frame
      [{ mac_address := "AA", api_key := "k", friendly_id := "f",
         created_at := 0, last_seen := some 1,
         firmware_version := some "1.0", battery_voltage := some 37 }]
      "AA" {}).1 rfl,
   ((update_device_status_frame [] "AA" { last_seen := some 9 }).2.2
      { mac_address := "AA", api_key := "k", friendly_id := "f",
        created_at := 0, last_seen := some 1,
        firmware_version := some "1.0",
        battery_voltage := some 37 }).2.2.2.2.2.1 rfl,
   ((update_device_status_frame [] "AA" { last_seen := some 9 }).2.2
      { mac_address := "AA", api_key := "k", friendly_id := "f",
        created_at := 0, last_seen := some 1,
        firmware_version := some "1.0",
        battery_voltage := some 37 }).2.2.2.2.2.2.1 rfl,
   ((update_device_status_frame [] "AA" { last_seen := some 9 }).2.2
      { mac_address := "AA", api_key := "k", friendly_id := "f",
        created_at := 0, last_seen := some 1,
        firmware_version := some "1.0",
        battery_voltage := some 37 }).2.2.2.2.2.2.2.1 9 rfl⟩

/-! ### Monochrome encoder — `ImageGenerator._convert_to_monochrome_png`
    (src/app/image_utils.py)

    temp_path = output_path.with_suffix(".tmp.png")
    image.save(temp_path)
    try:
        subprocess.run(["magick", str(temp_path), "-monochrome", "-colors",
                        "2", "-depth", "1", "-strip", f"png:..."],
                       check=True, capture_output=True)
        temp_path.unlink()
    except (subprocess.CalledProcessError, FileNotFoundError):
        temp_path.rename(output_path)

The filesystem is an association list from path to the kind of file written
(most recent write first).  File contents are abstracted to the producing
stage, which is all the claims consult. -/

inductive FileKind
  | pilPng      -- saved directly by PIL (not strictly quantized)
  | magickPng   -- written by the external quantization tool (1-bit depth)
deriving Repr, DecidableEq

abbrev FileSystem := List (String × FileKind)

def fsWrite (fs : FileSystem) (p : String) (k : FileKind) : FileSystem :=
  (p, k) :: fs

def fsRemove (fs : FileSystem) (p : String) : FileSystem :=
  fs.filter (fun e => e.1 != p)

def fsRename (fs : FileSystem) (src dst : String) : FileSystem :=
  match fs.lookup src with
  | some k => fsWrite (fsRemove fs src) dst k
  | none => fs

def fsExists (fs : FileSystem) (p : String) : Bool :=
  (fs.lookup p).isSome

/-- Embeds `output_path.with_suffix(".tmp.png")`.  Every call site passes a path
ending in ".png" (both named `self.output_dir / f"...png"`), for which
with_suffix drops those four characters and appends ".tmp.png". -/
def temp_path (outputPath : String) : String :=
  String.mk (outputPath.toList.take (outputPath.toList.length - 4)
    ++ ".tmp.png".toList)

/-- The possible completions of the `subprocess.run` call: exit 0, a non-zero
exit (`CalledProcessError` under check=True), or a missing `magick` binary
(`FileNotFoundError`). -/
inductive ToolOutcome
  | success
  | nonZeroExit
  | toolMissing
deriving Repr, DecidableEq

/-- Effect of `_convert_to_monochrome_png` on the filesystem, given how the
external tool call completes. -/
def convert_to_monochrome_png (fs : FileSystem) (outcome : ToolOutcome)
    (outputPath : String) : FileSystem :=
  let fs1 := fsWrite fs (temp_path outputPath) FileKind.pilPng
  match outcome with
  | .success =>
    fsRemove (fsWrite fs1 outputPath FileKind.magickPng) (temp_path outputPath)
  | .nonZeroExit => fsRename fs1 (temp_path outputPath) outputPath
  | .toolMissing => fsRename fs1 (temp_path outputPath) outputPath

/-- The exact argument record of the `subprocess.run` invocation.  `timeout`
is the Python keyword parameter of subprocess.run; the source omits it, so it
is `none`. -/
structure SubprocessCall where
  args : List String
  check : Bool
  capture_output : Bool
  timeout : Option Int
deriving Repr, DecidableEq

def magick_call (tempPath outputPath : String) : SubprocessCall :=
  { args := ["magick", tempPath, "-monochrome", "-colors", "2", "-depth",
             "1", "-strip", "png:" ++ outputPath],
    check := true, capture_output := true, timeout := none }

theorem temp_path_ne (p : String) : temp_path p ≠ p := by
  intro h
  have hlen := congrArg String.length h
  have h1 : (temp_path p).length =
      (p.toList.take (p.toList.length - 4)).length
        + (".tmp.png".toList).length := by
    show (p.toList.take (p.toList.length - 4) ++ ".tmp.png".toList).length = _
    exact List.length_append _ _
  have h8 : (".tmp.png".toList).length = 8 := rfl
  have h2 : p.length = p.toList.length := rfl
  rw [h1, h8, h2, List.length_take] at hlen
  omega

theorem convert_exists_of_rename (fs : FileSystem) (p : String) :
    fsExists
      (fsRename (fsWrite fs (temp_path p) FileKind.pilPng) (temp_path p) p)
      p = true := by
  simp [fsRename, fsWrite, List.lookup, fsExists]

/-- C9: for every canvas and output path, the monochrome encoder leaves a
file at the output path on return, whether the external quantization tool
succeeds, exits non-zero, or is missing (in the failure cases the temp file
saved by PIL is renamed into place). -/
theorem convert_to_monochrome_png_leaves_file (fs : FileSystem)
    (outcome : ToolOutcome) (p : String) :
    fsExists (convert_to_monochrome_png fs outcome p) p = true := by
  cases outcome with
  | success =>
    have hne : (p != temp_path p) = true := by
      rw [bne_iff_ne]
      exact fun h => temp_path_ne p h.symm
    have hstep : convert_to_monochrome_png fs ToolOutcome.success p =
        (p, FileKind.magickPng) ::
          List.filter (fun e => e.1 != temp_path p)
            ((temp_path p, FileKind.pilPng) :: fs) := by
      simp only [convert_to_monochrome_png, fsRemove, fsWrite,
        List.filter_cons]
      simp [hne]
    rw [hstep]
    simp [fsExists, List.lookup]
  | nonZeroExit => exact convert_exists_of_rename fs p
  | toolMissing => exact convert_exists_of_rename fs p

/-- C4 counterexample: the quantization tool invocation passes no timeout —
`subprocess.run` is called without the timeout parameter, so the claim that
every invocation runs under a bounded timeout is false at this concrete
call. -/
theorem magick_call_no_timeout :
    (magick_call (temp_path "static/images/img.png")
      "static/images/img.png").timeout = none := rfl

/-- C4 (amended): the tool invocation carries no timeout bound, and the
defined fallback (rename-in-place, leaving a file at the output path) is
triggered by the two handled failures — a non-zero exit and a missing tool —
not by a hang. -/
theorem magick_no_timeout_and_fallback (fs : FileSystem) (p : String) :
    (magick_call (temp_path p) p).timeout = none ∧
    fsExists (convert_to_monochrome_png fs ToolOutcome.nonZeroExit p) p
      = true ∧
    fsExists (convert_to_monochrome_png fs ToolOutcome.toolMissing p) p
      = true :=
  ⟨rfl, convert_exists_of_rename fs p, convert_exists_of_rename fs p⟩

/-! ### In-memory images

A PIL image is modelled by its geometry, mode string and background fill —
the attributes the claims consult.  Drawing calls (text, rectangles,
watermark) mutate pixels only and leave all three unchanged. -/

structure Img where
  w : Int
  h : Int
  mode : String
  bg : String
deriving Repr, DecidableEq

/-- Embeds `Image.new(mode, (w, h), background)`. -/
def image_new (mode : String) (w h : Int) (bg : String) : Img :=
  ⟨w, h, mode, bg⟩

/-- Embeds `image.convert(mode)` — changes only the mode. -/
def img_convert (i : Img) (m : String) : Img := ⟨i.w, i.h, m, i.bg⟩

/-- Embeds `add_watermark` (src/app/image_utils.py): it draws a background rectangle and
the server URL text; it returns the same image object, geometry unchanged. -/
def add_watermark (i : Img) : Img := i

/-! ### PIL `Image.thumbnail` output size

    x, y = map(math.floor, size)
    if x >= self.width and y >= self.height: return
    def round_aspect(number, key):
        return max(min(math.floor(number), math.ceil(number), key=key), 1)
    aspect = self.width / self.height
    if x / y >= aspect:
        x = round_aspect(y * aspect, key=lambda n: abs(aspect - n / y))
    else:
        y = round_aspect(x / aspect,
                         key=lambda n: 0 if n == 0 else abs(aspect - x / n))
    size = (x, y)

Modelled from the PIL library source (the call `source_image.thumbnail`
in `data_uri_to_image` is library code, not repository code).  PIL computes
`aspect` with floats; the model uses exact rational arithmetic via integer
cross-multiplication, which agrees except where float rounding of extreme
sizes differs.  `min(..., key)` returns the first argument on ties. -/

def int_ceil_div (num d : Int) : Int := -(Int.fdiv (-num) d)

def pil_thumbnail_size (tx ty sw sh : Int) : Int × Int :=
  if tx ≥ sw ∧ ty ≥ sh then (sw, sh)
  else if tx * sh ≥ sw * ty then
    let num := ty * sw
    let f := Int.fdiv num sh
    let c := int_ceil_div num sh
    let x := if |num - f * sh| ≤ |num - c * sh| then f else c
    (max x 1, ty)
  else
    let num := tx * sh
    let f := Int.fdiv num sw
    let c := int_ceil_div num sw
    let y :=
      if f = 0 then f
      else if c = 0 then c
      else if |sw * f - num| * c ≤ |sw * c - num| * f then f else c
    (tx, max y 1)

theorem int_floor_bounds (num d : Int) (hd : 0 < d) :
    d * Int.fdiv num d ≤ num ∧ num < d * (Int.fdiv num d + 1) := by
  have heq : Int.fdiv num d = num / d := Int.fdiv_eq_ediv num (le_of_lt hd)
  have h1 := Int.ediv_add_emod num d
  have h2 := Int.emod_nonneg num (by omega : d ≠ 0)
  have h3 := Int.emod_lt_of_pos num hd
  constructor
  · rw [heq]; linarith
  · rw [heq]
    have : d * (num / d + 1) = d * (num / d) + d := by ring
    linarith

theorem int_ceil_bounds (num d : Int) (hd : 0 < d) :
    num ≤ d * int_ceil_div num d ∧ d * (int_ceil_div num d - 1) < num := by
  have h := int_floor_bounds (-num) d hd
  unfold int_ceil_div
  constructor
  · have : d * -Int.fdiv (-num) d = -(d * Int.fdiv (-num) d) := by ring
    linarith [h.1, this.ge, this.le]
  · have : d * (-Int.fdiv (-num) d - 1) = -(d * (Int.fdiv (-num) d + 1)) := by
      ring
    linarith [h.2, this.ge, this.le]

theorem int_floor_le_ceil (num d : Int) (hd : 0 < d) :
    Int.fdiv num d ≤ int_ceil_div num d := by
  have hf := (int_floor_bounds num d hd).1
  have hc := (int_ceil_bounds num d hd).1
  have : d * Int.fdiv num d ≤ d * int_ceil_div num d := le_trans hf hc
  exact le_of_mul_le_mul_left this hd

theorem max_pick_bounds {f c x b s : Int} (hx : x = f ∨ x = c) (hfc : f ≤ c)
    (hcb : c ≤ b) (hcs : c ≤ s) (hb : 1 ≤ b) (hs : 1 ≤ s) :
    1 ≤ max x 1 ∧ max x 1 ≤ b ∧ max x 1 ≤ s := by
  rcases hx with rfl | rfl
  · exact ⟨le_max_right _ _, max_le (le_trans hfc hcb) hb,
      max_le (le_trans hfc hcs) hs⟩
  · exact ⟨le_max_right _ _, max_le hcb hb, max_le hcs hs⟩

theorem pil_thumbnail_size_props (sw sh : Int) (hsw : 1 ≤ sw) (hsh : 1 ≤ sh) :
    1 ≤ (pil_thumbnail_size 800 480 sw sh).1 ∧
    1 ≤ (pil_thumbnail_size 800 480 sw sh).2 ∧
    (pil_thumbnail_size 800 480 sw sh).1 ≤ 800 ∧
    (pil_thumbnail_size 800 480 sw sh).2 ≤ 480 ∧
    (pil_thumbnail_size 800 480 sw sh).1 ≤ sw ∧
    (pil_thumbnail_size 800 480 sw sh).2 ≤ sh ∧
    (sw ≤ 800 ∧ sh ≤ 480 → pil_thumbnail_size 800 480 sw sh = (sw, sh)) := by
  by_cases hfit : (800 : Int) ≥ sw ∧ (480 : Int) ≥ sh
  · simp only [pil_thumbnail_size, if_pos hfit]
    exact ⟨hsw, hsh, hfit.1, hfit.2, le_refl sw, le_refl sh, fun _ => trivial⟩
  · by_cases hbr : (800 : Int) * sh ≥ sw * 480
    · -- width-constrained branch: x recomputed, y = 480
      have hsh0 : (0 : Int) < sh := by omega
      have hf := int_floor_bounds (480 * sw) sh hsh0
      have hc := int_ceil_bounds (480 * sw) sh hsh0
      have hfc := int_floor_le_ceil (480 * sw) sh hsh0
      have hsh480 : (480 : Int) ≤ sh := by
        by_contra hlt
        push_neg at hlt
        have hsw801 : (801 : Int) ≤ sw := by
          by_contra hswle
          push_neg at hswle
          exact hfit ⟨by omega, by omega⟩
        omega
      have hcb : int_ceil_div (480 * sw) sh ≤ 800 := by
        have h1 : sh * (int_ceil_div (480 * sw) sh - 1) < sh * 800 := by
          have : (480 : Int) * sw ≤ sh * 800 := by linarith
          linarith [hc.2]
        have := lt_of_mul_lt_mul_left h1 (le_of_lt hsh0)
        omega
      have hcs : int_ceil_div (480 * sw) sh ≤ sw := by
        have hmul : (480 : Int) * sw ≤ sh * sw := by
          have := mul_le_mul_of_nonneg_right hsh480 (by omega : (0 : Int) ≤ sw)
          linarith
        have h1 : sh * (int_ceil_div (480 * sw) sh - 1) < sh * sw := by
          linarith [hc.2]
        have := lt_of_mul_lt_mul_left h1 (le_of_lt hsh0)
        omega
      have hxcases :
          (if |480 * sw - Int.fdiv (480 * sw) sh * sh| ≤
              |480 * sw - int_ceil_div (480 * sw) sh * sh|
           then Int.fdiv (480 * sw) sh else int_ceil_div (480 * sw) sh) =
            Int.fdiv (480 * sw) sh ∨
          (if |480 * sw - Int.fdiv (480 * sw) sh * sh| ≤
              |480 * sw - int_ceil_div (480 * sw) sh * sh|
           then Int.fdiv (480 * sw) sh else int_ceil_div (480 * sw) sh) =
            int_ceil_div (480 * sw) sh := ite_eq_or_eq _ _ _
      have hres : pil_thumbnail_size 800 480 sw sh =
          ((max (if |480 * sw - Int.fdiv (480 * sw) sh * sh| ≤
              |480 * sw - int_ceil_div (480 * sw) sh * sh|
            then Int.fdiv (480 * sw) sh else int_ceil_div (480 * sw) sh) 1),
           480) := by
        simp only [pil_thumbnail_size, if_neg hfit, if_pos hbr]
      have hb := max_pick_bounds hxcases hfc hcb hcs (by omega) hsw
      rw [hres]
      exact ⟨hb.1, by omega, hb.2.1, le_refl _, hb.2.2, hsh480,
        fun h => absurd ⟨h.1, h.2⟩ hfit⟩
    · -- height-constrained branch: y recomputed, x = 800
      push_neg at hbr
      have hsw0 : (0 : Int) < sw := by omega
      have hf := int_floor_bounds (800 * sh) sw hsw0
      have hc := int_ceil_bounds (800 * sh) sw hsw0
      have hfc := int_floor_le_ceil (800 * sh) sw hsw0
      have hsw800 : (800 : Int) ≤ sw := by
        by_contra hlt
        push_neg at hlt
        have hsh481 : (481 : Int) ≤ sh := by
          by_contra hshle
          push_neg at hshle
          exact hfit ⟨by omega, by omega⟩
        omega
      have hcb : int_ceil_div (800 * sh) sw ≤ 480 := by
        have h1 : sw * (int_ceil_div (800 * sh) sw - 1) < sw * 480 := by
          have : (800 : Int) * sh ≤ sw * 480 := le_of_lt hbr
          linarith [hc.2]
        have := lt_of_mul_lt_mul_left h1 (le_of_lt hsw0)
        omega
      have hcs : int_ceil_div (800 * sh) sw ≤ sh := by
        have hmul : (800 : Int) * sh ≤ sw * sh := by
          exact mul_le_mul_of_nonneg_right hsw800 (by omega : (0 : Int) ≤ sh)
        have h1 : sw * (int_ceil_div (800 * sh) sw - 1) < sw * sh := by
          linarith [hc.2]
        have := lt_of_mul_lt_mul_left h1 (le_of_lt hsw0)
        omega
      have hres : pil_thumbnail_size 800 480 sw sh =
          (800, max
            (if Int.fdiv (800 * sh) sw = 0 then Int.fdiv (800 * sh) sw
             else if int_ceil_div (800 * sh) sw = 0 then int_ceil_div (800 * sh) sw
             else if |sw * Int.fdiv (800 * sh) sw - 800 * sh| *
                 int_ceil_div (800 * sh) sw ≤
               |sw * int_ceil_div (800 * sh) sw - 800 * sh| *
                 Int.fdiv (800 * sh) sw
               then Int.fdiv (800 * sh) sw else int_ceil_div (800 * sh) sw) 1) := by
        simp only [pil_thumbnail_size, if_neg hfit, if_neg (not_le.mpr hbr)]
      have hycases :
          (if Int.fdiv (800 * sh) sw = 0 then Int.fdiv (800 * sh) sw
           else if int_ceil_div (800 * sh) sw = 0 then int_ceil_div (800 * sh) sw
           else if |sw * Int.fdiv (800 * sh) sw - 800 * sh| *
               int_ceil_div (800 * sh) sw ≤
             |sw * int_ceil_div (800 * sh) sw - 800 * sh| *
               Int.fdiv (800 * sh) sw
             then Int.fdiv (800 * sh) sw else int_ceil_div (800 * sh) sw) =
            Int.fdiv (800 * sh) sw ∨
          (if Int.fdiv (800 * sh) sw = 0 then Int.fdiv (800 * sh) sw
           else if int_ceil_div (800 * sh) sw = 0 then int_ceil_div (800 * sh) sw
           else if |sw * Int.fdiv (800 * sh) sw - 800 * sh| *
               int_ceil_div (800 * sh) sw ≤
             |sw * int_ceil_div (800 * sh) sw - 800 * sh| *
               Int.fdiv (800 * sh) sw
             then Int.fdiv (800 * sh) sw else int_ceil_div (800 * sh) sw) =
            int_ceil_div (800 * sh) sw := by
        by_cases h0 : Int.fdiv (800 * sh) sw = 0
        · left; simp [h0]
        · by_cases h1 : int_ceil_div (800 * sh) sw = 0
          · right; simp [h0, h1]
          · simp only [if_neg h0, if_neg h1]
            exact ite_eq_or_eq _ _ _
      have hb := max_pick_bounds hycases hfc hcb hcs (by omega) hsh
      rw [hres]
      exact ⟨by omega, hb.1, le_refl _, hb.2.1, hsw800, hb.2.2,
        fun h => absurd ⟨h.1, h.2⟩ hfit⟩

/-! ### base64 decoding — `base64.b64decode` as used by `data_uri_to_image`

Modelled from the Python standard library (default non-validating mode):
characters outside the base64 alphabet are discarded, then 4-character
groups decode to 3 bytes; a final group `xx==` yields one byte and `xxx=`
two; leftover characters that form no full group raise binascii.Error
("Invalid padding"), modelled as `none`. -/

def b64_alphabet : List Char :=
  "ABCDEFGHIJKLMNOPQRSTUVWXYZabcdefghijklmnopqrstuvwxyz0123456789+/".toList

def b64_char_val (c : Char) : Option Nat :=
  b64_alphabet.findIdx? (fun x => x == c)

def b64_clean (s : String) : List Char :=
  s.toList.filter (fun c => b64_alphabet.contains c || c == '=')

def b64_decode_groups : List Char → Option (List Nat)
  | [] => some []
  | a :: b :: c :: d :: rest => do
    let va ← b64_char_val a
    let vb ← b64_char_val b
    if c = '=' then
      if d = '=' ∧ rest = [] then some [va * 4 + vb / 16] else none
    else do
      let vc ← b64_char_val c
      if d = '=' then
        if rest = [] then some [va * 4 + vb / 16, (vb % 16) * 16 + vc / 4]
        else none
      else do
        let vd ← b64_char_val d
        let tail ← b64_decode_groups rest
        some ([va * 4 + vb / 16, (vb % 16) * 16 + vc / 4, (vc % 4) * 64 + vd]
          ++ tail)
  | _ => none

def b64decode (s : String) : Option (List Nat) :=
  b64_decode_groups (b64_clean s)

/-! ### `PIL.Image.open` — bitmap identification

Modelled from PIL (library code): `Image.open` raises
`UnidentifiedImageError` when the payload matches no registered image
format.  The model recognizes the PNG container — the format this server
produces and its callers send — via the 8-byte signature followed by the
IHDR chunk carrying big-endian width, height, bit depth and color type;
everything else is rejected. -/

def be32 (b0 b1 b2 b3 : Nat) : Int :=
  ((b0 * 256 + b1) * 256 + b2) * 256 + b3

def png_color_mode (colorType : Nat) : String :=
  if colorType = 0 then "L"
  else if colorType = 2 then "RGB"
  else if colorType = 3 then "P"
  else if colorType = 4 then "LA"
  else "RGBA"

def image_open (bytes : List Nat) : Option Img :=
  match bytes with
  | 137 :: 80 :: 78 :: 71 :: 13 :: 10 :: 26 :: 10 ::
      _l0 :: _l1 :: _l2 :: _l3 :: 73 :: 72 :: 68 :: 82 ::
      w0 :: w1 :: w2 :: w3 :: h0 :: h1 :: h2 :: h3 ::
      _depth :: colorType :: _rest =>
    some ⟨be32 w0 w1 w2 w3, be32 h0 h1 h2 h3, png_color_mode colorType, ""⟩
  | _ => none

/-! ### `ImageGenerator.data_uri_to_image` (src/app/image_utils.py)

    if ',' in data_uri: base64_data = data_uri.split(',')[1]
    else: base64_data = data_uri
    image_data = base64.b64decode(base64_data)
    source_image = Image.open(io.BytesIO(image_data))
    if source_image.mode != 'RGB':
        source_image = source_image.convert('RGB')
    display_size = (800, 480)
    source_image.thumbnail(display_size, Image.Resampling.LANCZOS)
    final_image = Image.new('RGB', display_size, 'white')
    x = (display_size[0] - source_image.width) // 2
    y = (display_size[1] - source_image.height) // 2
    final_image.paste(source_image, (x, y))
    final_image = self.add_watermark(final_image)
    final_image = final_image.convert('1')
    final_image.save(file_path, 'PNG')
-/

def split_on_comma (l : List Char) : List (List Char) :=
  match l with
  | [] => [[]]
  | c :: rest =>
    match split_on_comma rest with
    | [] => [[]]
    | h :: t => if c = ',' then [] :: h :: t else (c :: h) :: t

/-- Embeds `data_uri.split(',')[1] if ',' in data_uri else data_uri`. -/
def uri_payload (s : String) : String :=
  String.mk ((split_on_comma s.toList).getD 1 s.toList)

structure UriRender where
  artifact : Img
  canvas : Img
  thumb : Int × Int
  paste_pos : Int × Int
deriving Repr, DecidableEq

def data_uri_render (src : Img) : UriRender :=
  let srcRGB := if src.mode != "RGB" then img_convert src "RGB" else src
  let t := pil_thumbnail_size 800 480 srcRGB.w srcRGB.h
  let canvas := image_new "RGB" 800 480 "white"
  { artifact := img_convert (add_watermark canvas) "1",
    canvas := canvas,
    thumb := t,
    paste_pos := (Int.fdiv (800 - t.1) 2, Int.fdiv (480 - t.2) 2) }

/-! ### POST /api/screens — body validation (src/app/models.py) and
dispatch (src/app/main.py `create_screen`) -/

structure ScreenRequestRaw where
  content_type : String
  content : String
  filename : Option String
  width : Int := 800
  height : Int := 480
  device_id : Option String := none
deriving Repr, DecidableEq

/-- models.py: `content_type: Literal["html", "uri", "data"]` — the set of
values the pydantic ScreenRequest model accepts. -/
def screen_content_types : List String := ["html", "uri", "data"]

def screen_request_valid (r : ScreenRequestRaw) : Bool :=
  screen_content_types.contains r.content_type

inductive RenderPath
  | htmlPath
  | bigTextPath
  | uriPath
  | textPath
deriving Repr, DecidableEq

/-- The if/elif chain of `create_screen` in src/app/main.py. -/
def create_screen_dispatch (ct : String) : RenderPath :=
  if ct = "html" then .htmlPath
  else if ct = "big_text" then .bigTextPath
  else if ct = "uri" then .uriPath
  else .textPath

/-- Embeds the `create_image` (also reached via `html_to_image`) final canvas: drawing,
RGB conversion and watermarking preserve geometry, and
`_convert_to_monochrome_png` neither resizes nor crops (its magick arguments
hold no geometry operation; its fallback is a rename). -/
def create_image_artifact (width height : Int) : Img :=
  add_watermark (img_convert (image_new "1" width height "1") "RGB")

/-- Embeds the `create_big_text_image` / `_create_massive_text_manually` final canvas. -/
def big_text_artifact (_text : String) (width height : Int) : Img :=
  add_watermark (img_convert (image_new "1" width height "1") "RGB")

inductive ScreenOutcome
  | invalid
  | error (message : String)
  | ok (filename : String) (artifact : Img)
deriving Repr, DecidableEq

/-- Embeds `general_exception_handler` (src/app/main.py): any unhandled exception
becomes HTTP 500 with the status-2 envelope. -/
structure ErrorBody where
  status : Int
  error : String
  message : String
  retry_after : Option Int
deriving Repr, DecidableEq

def general_exception_handler (msg : String) : Nat × ErrorBody :=
  (500, ⟨2, "Internal Server Error", msg, some 300⟩)

/-- HTTP status of a POST /api/screens outcome: 422 is FastAPI rejecting a
body that fails ScreenRequest validation before the handler runs; errors
raised inside the handler reach `general_exception_handler`. -/
def screen_response_status : ScreenOutcome → Nat
  | .invalid => 422
  | .error msg => (general_exception_handler msg).1
  | .ok _ _ => 200

/-- Caller-supplied filename, or the generated timestamp-based name `gen`. -/
def screen_filename (r : ScreenRequestRaw) (gen : String) : String :=
  r.filename.getD gen

def create_screen (r : ScreenRequestRaw) (gen : String) : ScreenOutcome :=
  if screen_request_valid r = false then .invalid
  else
    match create_screen_dispatch r.content_type with
    | .htmlPath =>
      -- html_to_image(content, filename): width/height are not forwarded
      .ok (screen_filename r gen) (create_image_artifact 800 480)
    | .bigTextPath =>
      .ok (screen_filename r gen) (big_text_artifact r.content r.width r.height)
    | .uriPath =>
      match b64decode (uri_payload r.content) with
      | none => .error "Invalid base64-encoded string"
      | some bytes =>
        match image_open bytes with
        | none => .error "cannot identify image file"
        | some src => .ok (screen_filename r gen) (data_uri_render src).artifact
    | .textPath =>
      .ok (screen_filename r gen) (create_image_artifact r.width r.height)

def artifact_dims : ScreenOutcome → Option (Int × Int)
  | .ok _ a => some (a.w, a.h)
  | _ => none

/-! ### Latest-Image Register (src/app/main.py `latest_image_filename`) -/

/-- Embeds `create_screen` followed by `latest_image_filename = filename` — the register is
assigned only after the rasterizer returned, so only on success. -/
def create_screen_with_register (latest : Option String)
    (r : ScreenRequestRaw) (gen : String) : ScreenOutcome × Option String :=
  match create_screen r gen with
  | .ok f a => (.ok f a, some f)
  | o => (o, latest)

def hello_world_filename (ts : String) : String := "hello-world-" ++ ts

structure DisplayResult where
  filename : String
  bigTextSource : Option String
deriving Repr, DecidableEq

/-- Embeds the Python truthiness test `if latest_image_filename:` on the
register value: None and the empty string are both falsy, matching the
spec's "empty = unset". -/
def register_truthy : Option String → Bool
  | some f => f != ""
  | none => false

/-- GET /api/display — `display_endpoint` (src/app/main.py): serves the
registered filename when `if latest_image_filename:` is truthy (not None
and not the empty string); otherwise calls `create_hello_world_image` (a
big-text render of "HELLO WORLD" named hello-world-(timestamp)) without
touching the register.  `bigTextSource` records the text of an on-demand
big-text synthesis, `none` when the image is served from the register. -/
def display_endpoint (latest : Option String) (ts : String) :
    DisplayResult × Option String :=
  if register_truthy latest then (⟨latest.getD "", none⟩, latest)
  else (⟨hello_world_filename ts, some "HELLO WORLD"⟩, latest)

/-- C1 (evaluation at the failing input): a POST /api/screens body with
content_type "big_text" fails the pydantic ScreenRequest validation — whose
Literal lists only "html", "uri" and "data" — and is answered 422 before the
handler runs, even though create_screen's dispatch chain has a dedicated
big_text branch, which is therefore unreachable. -/
theorem big_text_request_rejected :
    screen_request_valid
      { content_type := "big_text", content := "HI", filename := none }
      = false ∧
    create_screen
      { content_type := "big_text", content := "HI", filename := none } "gen"
      = ScreenOutcome.invalid ∧
    screen_response_status
      (create_screen
        { content_type := "big_text", content := "HI", filename := none }
        "gen") = 422 ∧
    create_screen_dispatch "big_text" = RenderPath.bigTextPath :=
  ⟨by decide, by decide, by decide, by decide⟩

/-- C2 counterexample: the concrete data-URI push whose payload "AAAA"
decodes to three bytes that no image format identifies is answered with
HTTP 500 — not a 4xx-class error as claimed. -/
theorem uri_bad_payload_answered_500 :
    create_screen
      { content_type := "uri", content := "data:image/png;base64,AAAA",
        filename := none } "gen"
      = ScreenOutcome.error "cannot identify image file" ∧
    screen_response_status
      (create_screen
        { content_type := "uri", content := "data:image/png;base64,AAAA",
          filename := none } "gen") = 500 ∧
    ¬(400 ≤ screen_response_status
        (create_screen
          { content_type := "uri", content := "data:image/png;base64,AAAA",
            filename := none } "gen") ∧
      screen_response_status
        (create_screen
          { content_type := "uri", content := "data:image/png;base64,AAAA",
            filename := none } "gen") < 500) :=
  ⟨by decide, by decide, by decide⟩

/-- C2 (amended): a data-URI push whose payload fails base64 decoding or
bitmap identification raises inside data_uri_to_image; the uncaught exception
is answered by general_exception_handler with HTTP 500 and the status-2
envelope — a 5xx response, not a 4xx validation failure, and not a blank
canvas. -/
theorem uri_decode_failure_yields_500 (r : ScreenRequestRaw) (gen : String)
    (hct : r.content_type = "uri")
    (hfail : b64decode (uri_payload r.content) = none ∨
      ∃ bytes, b64decode (uri_payload r.content) = some bytes ∧
        image_open bytes = none) :
    ∃ msg, create_screen r gen = ScreenOutcome.error msg ∧
      screen_response_status (create_screen r gen) = 500 ∧
      (general_exception_handler msg).2 =
        ⟨2, "Internal Server Error", msg, some 300⟩ := by
  have hvalid : screen_request_valid r = true := by
    simp [screen_request_valid, screen_content_types, hct]
  have hdisp : create_screen_dispatch r.content_type = RenderPath.uriPath := by
    rw [hct]; decide
  rcases hfail with hnone | ⟨bytes, hsome, hopen⟩
  · have hcs : create_screen r gen =
        ScreenOutcome.error "Invalid base64-encoded string" := by
      simp [create_screen, hvalid, hdisp, hnone]
    exact ⟨_, hcs, by rw [hcs]; rfl, rfl⟩
  · have hcs : create_screen r gen =
        ScreenOutcome.error "cannot identify image file" := by
      simp [create_screen, hvalid, hdisp, hsome, hopen]
    exact ⟨_, hcs, by rw [hcs]; rfl, rfl⟩

/-- Witness for C2's amended theorem at the concrete payload "AAAA" (valid
base64, three zero bytes, no image signature). -/
theorem uri_decode_failure_yields_500_witness :
    ∃ msg, create_screen
        { content_type := "uri", content := "data:image/png;base64,AAAA",
          filename := none } "gen" = ScreenOutcome.error msg ∧
      screen_response_status
        (create_screen
          { content_type := "uri", content := "data:image/png;base64,AAAA",
            filename := none } "gen") = 500 ∧
      (general_exception_handler msg).2 =
        ⟨2, "Internal Server Error", msg, some 300⟩ :=
  uri_decode_failure_yields_500
    { content_type := "uri", content := "data:image/png;base64,AAAA",
      filename := none } "gen" rfl
    (Or.inr ⟨[0, 0, 0], by decide, by decide⟩)

/-- C3 counterexample: an html push requesting 400×240 produces an 800×480
artifact — html_to_image does not forward the requested dimensions — so the
persisted artifact does not have the requested width×height. -/
theorem html_request_ignores_requested_dims :
    artifact_dims (create_screen
      { content_type := "html", content := "<h1>Hi</h1>",
        filename := some "t1", width := 400, height := 240 } "gen")
      = some (800, 480) ∧
    ((800 : Int), (480 : Int)) ≠ ((400 : Int), (240 : Int)) :=
  ⟨by decide, by decide⟩

theorem data_uri_render_parts (src : Img) :
    (data_uri_render src).thumb = pil_thumbnail_size 800 480 src.w src.h ∧
    (data_uri_render src).artifact = ⟨800, 480, "1", "white"⟩ ∧
    (data_uri_render src).canvas = image_new "RGB" 800 480 "white" ∧
    (data_uri_render src).paste_pos =
      (Int.fdiv (800 - (data_uri_render src).thumb.1) 2,
       Int.fdiv (480 - (data_uri_render src).thumb.2) 2) := by
  cases hmode : src.mode != "RGB" <;>
    simp [data_uri_render, img_convert, image_new, add_watermark, hmode]

theorem center_fdiv_bounds (t bound : Int) (_h1 : 1 ≤ t) (h2 : t ≤ bound) :
    0 ≤ Int.fdiv (bound - t) 2 ∧ Int.fdiv (bound - t) 2 + t ≤ bound := by
  have he : Int.fdiv (bound - t) 2 = (bound - t) / 2 :=
    Int.fdiv_eq_ediv _ (by norm_num)
  rw [he]
  omega

/-- C3 (amended): the text ("data") path and the big-text rasterizer honor
the requested width×height, while the html path and the data-URI path ignore
the requested dimensions and produce 800×480; the data-URI path thumbnails
the decoded bitmap to fit 800×480 — never upscaling, leaving it unchanged
when it already fits — and pastes it at the centering offsets onto a white
RGB canvas of exactly 800×480, which is then watermarked and quantized. -/
theorem screen_artifact_dimensions (r : ScreenRequestRaw) (gen : String)
    (src : Img) (hsw : 1 ≤ src.w) (hsh : 1 ≤ src.h) :
    (r.content_type = "data" →
      artifact_dims (create_screen r gen) = some (r.width, r.height)) ∧
    (∀ text w h,
      ((big_text_artifact text w h).w, (big_text_artifact text w h).h)
        = (w, h)) ∧
    (r.content_type = "html" →
      artifact_dims (create_screen r gen) = some (800, 480)) ∧
    ((data_uri_render src).artifact.w = 800 ∧
      (data_uri_render src).artifact.h = 480) ∧
    (data_uri_render src).canvas = image_new "RGB" 800 480 "white" ∧
    (1 ≤ (data_uri_render src).thumb.1 ∧
      (data_uri_render src).thumb.1 ≤ 800 ∧
      (data_uri_render src).thumb.1 ≤ src.w ∧
      1 ≤ (data_uri_render src).thumb.2 ∧
      (data_uri_render src).thumb.2 ≤ 480 ∧
      (data_uri_render src).thumb.2 ≤ src.h) ∧
    (src.w ≤ 800 ∧ src.h ≤ 480 →
      (data_uri_render src).thumb = (src.w, src.h)) ∧
    ((data_uri_render src).paste_pos =
      (Int.fdiv (800 - (data_uri_render src).thumb.1) 2,
       Int.fdiv (480 - (data_uri_render src).thumb.2) 2) ∧
      0 ≤ (data_uri_render src).paste_pos.1 ∧
      (data_uri_render src).paste_pos.1 + (data_uri_render src).thumb.1 ≤ 800 ∧
      0 ≤ (data_uri_render src).paste_pos.2 ∧
      (data_uri_render src).paste_pos.2 + (data_uri_render src).thumb.2 ≤ 480)
    := by
  obtain ⟨hthumb, hart, hcanvas, hpos⟩ := data_uri_render_parts src
  have hprops := pil_thumbnail_size_props src.w src.h hsw hsh
  rw [← hthumb] at hprops
  have hcx := center_fdiv_bounds (data_uri_render src).thumb.1 800
    hprops.1 hprops.2.2.1
  have hcy := center_fdiv_bounds (data_uri_render src).thumb.2 480
    hprops.2.1 hprops.2.2.2.1
  refine ⟨?_, fun _ _ _ => rfl, ?_, ?_, hcanvas, ?_, ?_, ?_⟩
  · intro hct
    have hvalid : screen_request_valid r = true := by
      simp [screen_request_valid, screen_content_types, hct]
    have hdisp : create_screen_dispatch r.content_type = RenderPath.textPath := by
      rw [hct]; decide
    simp [create_screen, hvalid, hdisp, artifact_dims, create_image_artifact,
      add_watermark, img_convert, image_new]
  · intro hct
    have hvalid : screen_request_valid r = true := by
      simp [screen_request_valid, screen_content_types, hct]
    have hdisp : create_screen_dispatch r.content_type = RenderPath.htmlPath := by
      rw [hct]; decide
    simp [create_screen, hvalid, hdisp, artifact_dims, create_image_artifact,
      add_watermark, img_convert, image_new]
  · rw [hart]; exact ⟨rfl, rfl⟩
  · exact ⟨hprops.1, hprops.2.2.1, hprops.2.2.2.2.1, hprops.2.1,
      hprops.2.2.2.1, hprops.2.2.2.2.2.1⟩
  · intro hfits
    exact hprops.2.2.2.2.2.2 hfits
  · refine ⟨hpos, ?_, ?_, ?_, ?_⟩
    · rw [hpos]; exact hcx.1
    · rw [hpos]; exact hcx.2
    · rw [hpos]; exact hcy.1
    · rw [hpos]; exact hcy.2

/-- Witness for C3's amended theorem: a "data" push at 400×240 yields a
400×240 artifact; a source bitmap of 100×200 already fits and is left
unchanged by the thumbnail step. -/
theorem screen_artifact_dimensions_witness :
    artifact_dims (create_screen
      { content_type := "data", content := "hello", filename := none,
        width := 400, height := 240 } "gen") = some (400, 240) ∧
    (data_uri_render ⟨100, 200, "RGB", ""⟩).thumb = (100, 200) :=
  ⟨(screen_artifact_dimensions
      { content_type := "data", content := "hello", filename := none,
        width := 400, height := 240 } "gen" ⟨100, 200, "RGB", ""⟩
      (by decide) (by decide)).1 rfl,
   (screen_artifact_dimensions
      { content_type := "data", content := "hello", filename := none,
        width := 400, height := 240 } "gen" ⟨100, 200, "RGB", ""⟩
      (by decide) (by decide)).2.2.2.2.2.2.1 (by decide)⟩

/-- C8: the Latest-Image Register is written only by successful content
pushes and never by the poll endpoint — GET /api/display always leaves the
register exactly as it was; when the register is unset (None or the falsy
empty string, the spec's "empty = unset") it synthesizes the HELLO WORLD
big-text default on demand without storing it; when the register holds a
nonempty filename it returns that filename with no regeneration; and a push
updates the register exactly when the rasterizer succeeded. -/
theorem latest_image_register_spec (latest : Option String) (ts : String)
    (r : ScreenRequestRaw) (gen : String) :
    (display_endpoint latest ts).2 = latest ∧
    (∀ f, latest = some f → f ≠ "" →
      (display_endpoint latest ts).1 = ⟨f, none⟩) ∧
    (register_truthy latest = false →
      (display_endpoint latest ts).1 =
        ⟨hello_world_filename ts, some "HELLO WORLD"⟩) ∧
    (∀ f a, create_screen r gen = ScreenOutcome.ok f a →
      (create_screen_with_register latest r gen).2 = some f) ∧
    (∀ msg, create_screen r gen = ScreenOutcome.error msg →
      (create_screen_with_register latest r gen).2 = latest) ∧
    (create_screen r gen = ScreenOutcome.invalid →
      (create_screen_with_register latest r gen).2 = latest) := by
  refine ⟨?_, ?_, ?_, ?_, ?_, ?_⟩
  · rw [display_endpoint]
    split <;> rfl
  · intro f hf hne
    have ht : register_truthy (some f) = true := by
      rw [register_truthy, bne_iff_ne]
      exact hne
    simp [display_endpoint, hf, ht]
  · intro hfalse
    simp [display_endpoint, hfalse]
  · intro f a h; simp [create_screen_with_register, h]
  · intro msg h; simp [create_screen_with_register, h]
  · intro h; simp [create_screen_with_register, h]

/-- Witness for C8: with the register holding "t1" the poll serves "t1"
without synthesis; with it unset — None or the falsy empty string left by a
push with filename "" — the poll synthesizes HELLO WORLD; a successful html
push of filename "t1" writes the register. -/
theorem latest_image_register_spec_witness :
    (display_endpoint (some "t1") "20240101").1 = ⟨"t1", none⟩ ∧
    (display_endpoint none "20240101").1 =
      ⟨hello_world_filename "20240101", some "HELLO WORLD"⟩ ∧
    (display_endpoint (some "") "20240101").1 =
      ⟨hello_world_filename "20240101", some "HELLO WORLD"⟩ ∧
    (create_screen_with_register none
      { content_type := "html", content := "<h1>Hi</h1>",
        filename := some "t1" } "gen").2 = some "t1" :=
  ⟨(latest_image_register_spec (some "t1") "20240101"
      { content_type := "html", content := "<h1>Hi</h1>",
        filename := some "t1" } "gen").2.1 "t1" rfl (by decide),
   (latest_image_register_spec none "20240101"
      { content_type := "html", content := "<h1>Hi</h1>",
        filename := some "t1" } "gen").2.2.1 rfl,
   (latest_image_register_spec (some "") "20240101"
      { content_type := "html", content := "<h1>Hi</h1>",
        filename := some "t1" } "gen").2.2.1 (by decide),
   (latest_image_register_spec none "20240101"
      { content_type := "html", content := "<h1>Hi</h1>",
        filename := some "t1" } "gen").2.2.2.1 "t1"
      (create_image_artifact 800 480) (by decide)⟩

end Byos
